import Mathlib

/-
  Shallow embedding of gbm-ii/Cortex-M_C_startup_gen (src/h2cstartup.c).

  The program is a one-shot batch transform: it scans a vendor MCU header for
  an interrupt-number enumeration (lines of the form "identifier = integer"),
  builds a table indexed by integer+16, then emits weak handler declarations,
  a core-exception vector sub-table and an NVIC vector sub-table.

  Strings are modelled as List Char; the global array irqname[512][32] is
  modelled as a total function Nat -> List Char where [] means "no name
  stored" (matching the irqname[i][0] emptiness test in the C code).
  C ints are modelled as Int.
-/

namespace H2CStartup

/-- C isspace on the characters fgets can deliver. -/
def cSpace (c : Char) : Bool :=
  c == ' ' || c == '\t' || c == '\n' || c == '\x0b' || c == '\x0c' || c == '\r'

def dropWs (s : List Char) : List Char := s.dropWhile cSpace

def digitsVal (ds : List Char) : Nat :=
  ds.foldl (fun a c => a * 10 + (c.toNat - 48)) 0

/-- Greedy decimal digit run, as consumed by sscanf %d after the sign. -/
def parseUnsigned (s : List Char) : Option Nat :=
  let ds := s.takeWhile Char.isDigit
  if ds.isEmpty then none else some (digitsVal ds)

/-- Optional sign followed by digits, as consumed by sscanf %d. -/
def parseSigned (s : List Char) : Option Int :=
  match s with
  | '-' :: rest => (parseUnsigned rest).map (fun k => -(k : Int))
  | '+' :: rest => (parseUnsigned rest).map (fun k => (k : Int))
  | _ => (parseUnsigned s).map (fun k => (k : Int))

/-- sscanf(line, "%d", ...): leading whitespace skipped, then a signed int. -/
def scanfD (s : List Char) : Option Int := parseSigned (dropWs s)

/-- does the pattern start the candidate list? -/
def startsWith : List Char → List Char → Bool
  | [], _ => true
  | _ :: _, [] => false
  | p :: ps, c :: cs => p == c && startsWith ps cs

/-- strstr(haystack, pattern) as a Bool: does pattern occur inside? -/
def containsSeq (pat : List Char) : List Char → Bool
  | [] => pat.isEmpty
  | c :: rest => startsWith pat (c :: rest) || containsSeq pat rest

/--
sscanf(line, "%s = %d", irqid, &irqnum) == 2 from src/h2cstartup.c:183:
%s skips whitespace and reads a maximal non-whitespace token, the literal
spaces in the format skip whitespace, the = must match literally, and %d
reads a signed decimal integer; trailing characters are ignored.
-/
def scanfSD (s : List Char) : Option (List Char × Int) :=
  let s1 := dropWs s
  let tok := s1.takeWhile (fun c => !cSpace c)
  if tok.isEmpty then none
  else
    match dropWs (s1.drop tok.length) with
    | '=' :: rest =>
      match parseSigned (dropWs rest) with
      | some n => some (tok, n)
      | none => none
    | _ => none

/-- the marker substring searched by strstr(line, "_IRQn") at line 176. -/
def irqMarker : List Char := ("_IRQn").toList

/-- the closing-brace character tested by strchr(line, the brace) at line 194. -/
def rbrace : Char := '\x7d'

/--
irqid[strlen(irqid) - (irqnum >= 0 ? 1 : 4)] = 0 from src/h2cstartup.c:186:
truncate the identifier by 1 trailing character for non-negative numbers and
by 4 trailing characters for negative ones.
-/
def stripId (id : List Char) (n : Int) : List Char :=
  id.take (id.length - (if 0 ≤ n then 1 else 4))

/-- Scanner state: the irqdefs flag, loop-break flag, maxirqn and the
irqname table, plus the lines echoed to stderr by the error branch. -/
structure ScanState where
  irqdefs : Bool
  done : Bool
  maxirqn : Int
  table : Nat → List Char
  errs : List (List Char)

/-- state before the while(fgets(...)) loop: irqdefs = 0, maxirqn = -15,
irqname all empty. -/
def initState : ScanState :=
  { irqdefs := false, done := false, maxirqn := -15,
    table := fun _ => [], errs := [] }

/--
src/h2cstartup.c:176-177: if (!irqdefs && strstr(line, "_IRQn")) irqdefs = 1.
-/
def markerStage (st : ScanState) (ln : List Char) : ScanState :=
  if !st.irqdefs && containsSeq irqMarker ln then { st with irqdefs := true }
  else st

/--
src/h2cstartup.c:178-196: once irqdefs is set, try to parse
"identifier = integer"; for parsed integers below 496 truncate the
identifier, raise maxirqn, and store the name at index integer+16 when the
integer is in [-14, 512], otherwise report the line; a line that does not
parse (or parses with integer >= 496) and contains a closing brace breaks
the loop.
-/
def parseStage (st : ScanState) (ln : List Char) : ScanState :=
  if st.irqdefs then
    match scanfSD ln with
    | some (irqid, irqnum) =>
      if irqnum < 496 then
        let nm := stripId irqid irqnum
        let mx := if irqnum > st.maxirqn then irqnum else st.maxirqn
        if -14 ≤ irqnum ∧ irqnum ≤ 512 then
          { st with
            maxirqn := mx
            table := fun j => if j = (irqnum + 16).toNat then nm
                              else st.table j }
        else
          { st with maxirqn := mx, errs := st.errs ++ [ln] }
      else if ln.contains rbrace then { st with done := true } else st
    | none => if ln.contains rbrace then { st with done := true } else st
  else st

/-- One iteration of the while(fgets) loop, src/h2cstartup.c:174-197. -/
def stepLine (st : ScanState) (ln : List Char) : ScanState :=
  if st.done then st else parseStage (markerStage st ln) ln

/-- The whole scanning loop over the input lines. -/
def scan (lines : List (List Char)) : ScanState := lines.foldl stepLine initState

/-- The stdexcname array of src/h2cstartup.c:26-38 (0 pointers become none). -/
def stdexcname (i : Nat) : Option (List Char) :=
  if i = 2 then some (("NMI_").toList)
  else if i = 4 then some (("MemManage_").toList)
  else if i = 11 then some (("SVC_").toList)
  else if i = 12 then some (("DebugMon_").toList)
  else none

def handlerSuffix : List Char := ("Handler").toList

/--
nirqns = mcuirqns adjustment, src/h2cstartup.c:215-217:
if (nirqns > mcuirqns && !addirqs) nirqns = mcuirqns, with
mcuirqns = maxirqn + 1.
-/
def resolveN (mx n : Int) (ai : Bool) : Int :=
  if n > mx + 1 ∧ ai = false then mx + 1 else n

/--
maxirqn adjustment, src/h2cstartup.c:232-233:
if (nirqns != -1 && maxirqn > nirqns - 1) maxirqn = nirqns - 1, run after
the resolveN update of nirqns.
-/
def resolveMax (mx n : Int) (ai : Bool) : Int :=
  if resolveN mx n ai ≠ -1 ∧ mx > resolveN mx n ai - 1 then resolveN mx n ai - 1
  else mx

/--
Body of the declaration loop, src/h2cstartup.c:235-248: a named slot gets a
weak prototype (with the short standard name substituted when stdexcnames
is set, i < 16 and stdexcname[i] is non-null); an unnamed NVIC slot gets a
synthesized IRQ<k>_IRQHandler prototype when addirqs is set.
-/
def declEntry (std ai : Bool) (tbl : Nat → List Char) (i : Nat) :
    Option (List Char) :=
  if tbl i ≠ [] then
    some ((if std ∧ i < 16 ∧ (stdexcname i).isSome then (stdexcname i).getD []
           else tbl i) ++ handlerSuffix)
  else if 16 ≤ i ∧ ai then
    some (("IRQ").toList ++ Nat.toDigits 10 (i - 16) ++ ("_IRQHandler").toList)
  else none

/-- Declaration loop range: for (int i = 2; i <= maxirqn + 16; i++). -/
def declList (std ai : Bool) (tbl : Nat → List Char) (mx : Int) :
    List (List Char) :=
  (List.range' 2 ((mx + 15).toNat)).filterMap (declEntry std ai tbl)

/--
Body of the core-exception vector loop, src/h2cstartup.c:250-256: emit
CX(i) = <name>Handler for each named slot, substituting the standard short
name when stdexcnames is set and stdexcname[i] is non-null.
-/
def coreEntry (std : Bool) (tbl : Nat → List Char) (i : Nat) :
    Option (Nat × List Char) :=
  if tbl i ≠ [] then
    some (i, (if std ∧ (stdexcname i).isSome then (stdexcname i).getD []
              else tbl i) ++ handlerSuffix)
  else none

/-- Core vector loop range: for (int i = 2; i < 16; i++). -/
def coreList (std : Bool) (tbl : Nat → List Char) : List (Nat × List Char) :=
  (List.range' 2 14).filterMap (coreEntry std tbl)

/--
Body of the NVIC vector loop, src/h2cstartup.c:259-272: a named slot emits
[i-16] = <name>Handler; an unnamed slot emits the synthesized
[i-16] = IRQ<i-16>_IRQHandler entry when addirqs is set, and nothing
otherwise.
-/
def nvicEntry (ai : Bool) (tbl : Nat → List Char) (i : Nat) :
    Option (Nat × List Char) :=
  if tbl i ≠ [] then some (i - 16, tbl i ++ handlerSuffix)
  else if ai then
    some (i - 16, ("IRQ").toList ++ Nat.toDigits 10 (i - 16)
                  ++ ("_IRQHandler").toList)
  else none

/-- NVIC vector loop range: for (int i = 16; i <= maxirqn + 16; i++). -/
def nvicList (ai : Bool) (tbl : Nat → List Char) (mx : Int) :
    List (Nat × List Char) :=
  (List.range' 16 ((mx + 1).toNat)).filterMap (nvicEntry ai tbl)

/-- The three policy options of the program. -/
structure Config where
  addirqs : Bool
  stdexcnames : Bool
  nirqns : Int

/-- The structured content emitted by the generator. -/
structure GenOut where
  decls : List (List Char)
  core : List (Nat × List Char)
  nvic : List (Nat × List Char)

/-- Whole pipeline: scan the lines, resolve the bounds, generate. -/
def run (cfg : Config) (lines : List (List Char)) : GenOut :=
  let st := scan lines
  let m := resolveMax st.maxirqn cfg.nirqns cfg.addirqs
  { decls := declList cfg.stdexcnames cfg.addirqs st.table m,
    core := coreList cfg.stdexcnames st.table,
    nvic := nvicList cfg.addirqs st.table m }

/-- argv[s][i] with the terminating NUL for the first index past the end. -/
def charAt (s : List Char) (i : Nat) : Char := s.getD i (Char.ofNat 0)

/-- option defaults: addirqs = 0, stdexcnames = 0, nirqns = -1. -/
def cfg0 : Config := { addirqs := false, stdexcnames := false, nirqns := -1 }

/--
The option loop of src/h2cstartup.c:127-155: consume leading "-" arguments,
-n taking a 0..496 integer argument, -i and -s setting flags; an unknown
option or a bad/missing -n argument exits with ERR_BADOPT = 4.  Returns the
final config and the remaining (positional) arguments.
-/
def parseOpts : Config → List (List Char) →
    Except (Int × List Char) (Config × List (List Char))
  | cfg, [] => Except.ok (cfg, [])
  | cfg, a :: rest =>
    if charAt a 0 = '-' then
      if charAt a 1 = 'n' then
        match rest with
        | [] => Except.error (4, ("missing -n argument").toList)
        | v :: rest2 =>
          match scanfD v with
          | none => Except.error (4, ("missing -n argument").toList)
          | some k =>
            if k < 0 ∨ 496 < k then
              Except.error (4, ("-n argument out of range").toList)
            else parseOpts { cfg with nirqns := k } rest2
      else if charAt a 1 = 'i' then parseOpts { cfg with addirqs := true } rest
      else if charAt a 1 = 's' then parseOpts { cfg with stdexcnames := true } rest
      else Except.error (4, ("invalid option").toList)
    else Except.ok (cfg, a :: rest)

/-- How an invocation ends before any file is read. -/
inductive CliOutcome where
  | exit (code : Int) (msg : List Char)
  | launch (cfg : Config) (fileName : List Char)

/--
Entry logic of main, src/h2cstartup.c:116-169: no arguments prints the help
and returns 0; a failing option parse exits with its code; all arguments
consumed by options means "file not specified" and return 1; otherwise the
first positional argument is the input file name.
-/
def cliMain (args : List (List Char)) : CliOutcome :=
  if args.isEmpty then CliOutcome.exit 0 []
  else
    match parseOpts cfg0 args with
    | Except.error e => CliOutcome.exit e.1 e.2
    | Except.ok (cfg, pos) =>
      match pos with
      | [] => CliOutcome.exit 1 (("file not specified").toList)
      | f :: _ => CliOutcome.launch cfg f

/--
The guard after opening the output file, src/h2cstartup.c:206-211: the code
runs fopen(ofname, "w") and then tests the stale INPUT handle, written
if (in == NULL), not the freshly obtained output handle, before reporting
"cannot create file" and returning ERR_NOFILE = 2.  inOk and outOk say
whether the input and the output fopen succeeded; the result is some code
for an early exit, none to proceed with generation.
-/
def outOpenCheck (inOk outOk : Bool) : Option Int :=
  if inOk = false then some 2 else none

/-- A four-line header enumerating core exception -14 and NVIC interrupts
0 and 1, then the closing brace of the enum. -/
def hdrLines : List (List Char) :=
  [("  NonMaskableInt_IRQn = -14,").toList,
   ("  WWDG_IRQn = 0,").toList,
   ("  PVD_IRQn = 1,").toList,
   ("\x7d IRQn_Type;").toList]

/-- options -i -n 4. -/
def cfgIn4 : Config := { addirqs := true, stdexcnames := false, nirqns := 4 }

/-- an everywhere-named table, for instantiating table-generic theorems. -/
def tblW : Nat → List Char := fun _ => ("V").toList

/-- a scanner state with the marker already seen. -/
def stDefs : ScanState :=
  { irqdefs := true, done := false, maxirqn := -15,
    table := fun _ => [], errs := [] }

/-- an enumeration line with the out-of-range number -16. -/
def lnNeg16 : List Char := ("Foo_IRQn = -16,").toList

lemma markerStage_irqdefs_of (st : ScanState) (ln : List Char)
    (hdef : st.irqdefs = true ∨ containsSeq irqMarker ln = true) :
    (markerStage st ln).irqdefs = true := by
  unfold markerStage
  rcases hdef with h | h
  · split
    · rfl
    · exact h
  · cases hdf : st.irqdefs
    · simp [hdf, h]
    · split
      · rfl
      · exact hdf

lemma markerStage_done (st : ScanState) (ln : List Char) :
    (markerStage st ln).done = st.done := by
  unfold markerStage
  split <;> rfl

lemma markerStage_maxirqn (st : ScanState) (ln : List Char) :
    (markerStage st ln).maxirqn = st.maxirqn := by
  unfold markerStage
  split <;> rfl

lemma markerStage_table (st : ScanState) (ln : List Char) :
    (markerStage st ln).table = st.table := by
  unfold markerStage
  split <;> rfl

lemma markerStage_errs (st : ScanState) (ln : List Char) :
    (markerStage st ln).errs = st.errs := by
  unfold markerStage
  split <;> rfl

lemma parseStage_parsed (st : ScanState) (ln id : List Char) (n : Int)
    (hdf : st.irqdefs = true)
    (hp : scanfSD ln = some (id, n)) (hlt : n < 496) :
    parseStage st ln =
      if -14 ≤ n ∧ n ≤ 512 then
        { st with
          maxirqn := if n > st.maxirqn then n else st.maxirqn
          table := fun j => if j = (n + 16).toNat then stripId id n
                            else st.table j }
      else
        { st with
          maxirqn := if n > st.maxirqn then n else st.maxirqn
          errs := st.errs ++ [ln] } := by
  unfold parseStage
  rw [hp]
  simp only [hdf, hlt, if_true]

lemma stepLine_not_done (st : ScanState) (ln : List Char)
    (hdone : st.done = false) :
    stepLine st ln = parseStage (markerStage st ln) ln := by
  simp [stepLine, hdone]

/-- Claim C1: a header line accepted and stored by the scanner is stored at
table slot integer+16, under the identifier with its last character removed
for a non-negative integer and its last 4 characters removed for a negative
one, every other slot staying unchanged. -/
theorem c1_store_slot_and_name (st : ScanState) (ln id : List Char) (n : Int)
    (hdone : st.done = false)
    (hdef : st.irqdefs = true ∨ containsSeq irqMarker ln = true)
    (hp : scanfSD ln = some (id, n))
    (hlt : n < 496) (hlo : -14 ≤ n) :
    ((0 ≤ n → (stepLine st ln).table (n + 16).toNat = id.take (id.length - 1))
    ∧ (n < 0 → (stepLine st ln).table (n + 16).toNat = id.take (id.length - 4)))
    ∧ ∀ j : Nat, j ≠ (n + 16).toNat → (stepLine st ln).table j = st.table j := by
  rw [stepLine_not_done st ln hdone,
    parseStage_parsed (markerStage st ln) ln id n
      (markerStage_irqdefs_of st ln hdef) hp hlt,
    if_pos (show -14 ≤ n ∧ n ≤ 512 from ⟨hlo, by omega⟩)]
  refine ⟨⟨fun hn => ?_, fun hn => ?_⟩, fun j hj => ?_⟩
  · simp [stripId, hn]
  · have hnot : ¬ (0 ≤ n) := by omega
    simp [stripId, hnot]
  · simp [hj, markerStage_table]

/-- Witness for c1_store_slot_and_name at the line "  WWDG_IRQn = 0,". -/
theorem c1_store_witness :
    (stepLine initState (("  WWDG_IRQn = 0,").toList)).table
        (((0 : Int) + 16).toNat)
      = (("WWDG_IRQn").toList).take ((("WWDG_IRQn").toList).length - 1) :=
  (c1_store_slot_and_name initState (("  WWDG_IRQn = 0,").toList)
      (("WWDG_IRQn").toList) 0 rfl (Or.inr (by decide)) (by decide) (by decide)
      (by decide)).1.1 (by decide)

/-- Claim C2: with -n set the generation bound becomes
min(maxirqn, nirqns - 1), and when nirqns is below mcu_vectors every
emitted NVIC entry has slot index below nirqns. -/
theorem c2_effective_bound (mx n : Int) (ai : Bool) (tbl : Nat → List Char)
    (hn : 0 ≤ n) :
    resolveMax mx n ai = min mx (n - 1)
    ∧ (n < mx + 1 →
       ∀ p ∈ nvicList ai tbl (resolveMax mx n ai), (p.1 : Int) < n) := by
  have h1 : resolveMax mx n ai = min mx (n - 1) := by
    unfold resolveMax resolveN
    split_ifs <;> omega
  refine ⟨h1, fun hlt p hp => ?_⟩
  rw [h1] at hp
  unfold nvicList at hp
  rcases List.mem_filterMap.mp hp with ⟨i, hi, he⟩
  obtain ⟨h16, hhi⟩ := List.mem_range'_1.mp hi
  have hfst : p.1 = i - 16 := by
    unfold nvicEntry at he
    split_ifs at he <;> exact (congrArg Prod.fst (Option.some.inj he)).symm
  rw [hfst]
  omega

/-- Witness for c2_effective_bound at maxirqn 5, nirqns 3. -/
theorem c2_effective_witness : resolveMax 5 3 false = min (5 : Int) (3 - 1) :=
  (c2_effective_bound 5 3 false tblW (by decide)).1

/-- Claim C3: with -n set, a requested count exceeding mcu_vectors and -i
unset, the requested count is clamped down to mcu_vectors = maxirqn + 1. -/
theorem c3_clamp_to_mcu (mx n : Int) (ai : Bool)
    (hn : 0 ≤ n) (hgt : mx + 1 < n) (hai : ai = false) :
    resolveN mx n ai = mx + 1 := by
  subst hai
  unfold resolveN
  rw [if_pos ⟨hgt, rfl⟩]

/-- Witness for c3_clamp_to_mcu at maxirqn 1, nirqns 4. -/
theorem c3_clamp_witness : resolveN 1 4 false = 1 + 1 :=
  c3_clamp_to_mcu 1 4 false (by decide) (by decide) rfl

/-- Claim C4 fails on the code: on the two-interrupt header with -i -n 4 the
generator emits only the two named NVIC entries; the generation bound is
never raised to nirqns - 1, so the placeholder entries for indices 2 and 3
promised by the help text are not emitted. -/
theorem c4_emits_only_named_slots :
    (run cfgIn4 hdrLines).nvic
      = [(0, ("WWDG_IRQHandler").toList), (1, ("PVD_IRQHandler").toList)]
    ∧ (run cfgIn4 hdrLines).nvic.length ≠ 4 := by
  refine ⟨by decide, by decide⟩

/-- Claim C5 fails as stated: scanning "  WWDG_IRQn = 0," stores the name
WWDG_IRQ, not WWDG_. -/
theorem c5_counterexample :
    (scan [(("  WWDG_IRQn = 0,").toList)]).table 16 ≠ ("WWDG_").toList
    ∧ (scan [(("  WWDG_IRQn = 0,").toList)]).table 16 = ("WWDG_IRQ").toList := by
  refine ⟨by decide, by decide⟩

/-- Claim C5 (amended): for a non-negative integer only the final character
is removed, so Foo_IRQn yields Foo_IRQ; scanning the example header stores
NVIC slots 0 and 1 (table indices 16 and 17) under WWDG_IRQ and PVD_IRQ. -/
theorem c5_stripped_names :
    stripId (("Foo_IRQn").toList) 0 = ("Foo_IRQ").toList
    ∧ (scan hdrLines).table 16 = ("WWDG_IRQ").toList
    ∧ (scan hdrLines).table 17 = ("PVD_IRQ").toList := by
  refine ⟨by decide, by decide, by decide⟩

/-- Claim C6 fails as stated: the line "Foo_IRQn = -16," has its integer
inside [-16, 512] and below 496, yet the scanner stores nothing (slot 0
stays empty) and reports the line to the error stream. -/
theorem c6_counterexample :
    (stepLine initState lnNeg16).table 0 = []
    ∧ (stepLine initState lnNeg16).errs = [lnNeg16] := by
  refine ⟨by decide, by decide⟩

/-- Claim C6 (amended): a parsed line with integer below 496 is stored at
slot integer+16 exactly when the integer is at least -14 (the code checks
irqnum >= -14 && irqnum <= 512); otherwise the line is reported, nothing is
stored, and scanning continues. -/
theorem c6_range_check (st : ScanState) (ln id : List Char) (n : Int)
    (hdone : st.done = false)
    (hdef : st.irqdefs = true ∨ containsSeq irqMarker ln = true)
    (hp : scanfSD ln = some (id, n))
    (hlt : n < 496) :
    (-14 ≤ n →
      (stepLine st ln).table (n + 16).toNat = stripId id n
      ∧ (stepLine st ln).errs = st.errs
      ∧ (stepLine st ln).done = false)
    ∧ (n < -14 →
      (stepLine st ln).table = st.table
      ∧ (stepLine st ln).errs = st.errs ++ [ln]
      ∧ (stepLine st ln).done = false) := by
  rw [stepLine_not_done st ln hdone,
    parseStage_parsed (markerStage st ln) ln id n
      (markerStage_irqdefs_of st ln hdef) hp hlt]
  constructor
  · intro hlo
    rw [if_pos (show -14 ≤ n ∧ n ≤ 512 from ⟨hlo, by omega⟩)]
    exact ⟨by simp, by simp [markerStage_errs],
      by simp [markerStage_done, hdone]⟩
  · intro hlo
    rw [if_neg (show ¬ (-14 ≤ n ∧ n ≤ 512) from by omega)]
    exact ⟨by simp [markerStage_table], by simp [markerStage_errs],
      by simp [markerStage_done, hdone]⟩

/-- Witness for c6_range_check at the rejected line "Foo_IRQn = -16,". -/
theorem c6_range_witness :
    (stepLine initState lnNeg16).errs = initState.errs ++ [lnNeg16] :=
  ((c6_range_check initState lnNeg16 (("Foo_IRQn").toList) (-16) rfl
      (Or.inr (by decide)) (by decide) (by decide)).2 (by decide)).2.1

/-- Claim C7: with -s set, the four designated core-exception slots 2, 4,
11, 12 emit the fixed standard short names NMI_, MemManage_, SVC_,
DebugMon_ in both the declaration and the vector entry, while every other
core slot with a vendor-parsed name emits that name unchanged. -/
theorem c7_short_core_names (tbl : Nat → List Char) (ai : Bool) :
    ((tbl 2 ≠ [] →
       declEntry true ai tbl 2 = some (("NMI_Handler").toList)
       ∧ coreEntry true tbl 2 = some (2, ("NMI_Handler").toList))
    ∧ (tbl 4 ≠ [] →
       declEntry true ai tbl 4 = some (("MemManage_Handler").toList)
       ∧ coreEntry true tbl 4 = some (4, ("MemManage_Handler").toList))
    ∧ (tbl 11 ≠ [] →
       declEntry true ai tbl 11 = some (("SVC_Handler").toList)
       ∧ coreEntry true tbl 11 = some (11, ("SVC_Handler").toList))
    ∧ (tbl 12 ≠ [] →
       declEntry true ai tbl 12 = some (("DebugMon_Handler").toList)
       ∧ coreEntry true tbl 12 = some (12, ("DebugMon_Handler").toList)))
    ∧ ∀ i : Nat, 2 ≤ i → i ≤ 15 → i ≠ 2 → i ≠ 4 → i ≠ 11 → i ≠ 12 →
       tbl i ≠ [] →
       declEntry true ai tbl i = some (tbl i ++ handlerSuffix)
       ∧ coreEntry true tbl i = some (i, tbl i ++ handlerSuffix) := by
  constructor
  · refine ⟨fun h => ⟨?_, ?_⟩, fun h => ⟨?_, ?_⟩, fun h => ⟨?_, ?_⟩,
      fun h => ⟨?_, ?_⟩⟩ <;>
      simp [declEntry, coreEntry, stdexcname, handlerSuffix, h]
  · intro i h2 h15 hn2 hn4 hn11 hn12 hne
    interval_cases i <;> simp_all [declEntry, coreEntry, stdexcname]

/-- Witness for c7_short_core_names at an everywhere-named table. -/
theorem c7_short_witness :
    declEntry true false tblW 2 = some (("NMI_Handler").toList) :=
  ((c7_short_core_names tblW false).1.1 (by decide)).1

/-- Claim C8: the transform is a deterministic function of the header lines
and options: identical inputs give identical scan states and identical
generator output. -/
theorem c8_deterministic (cfga cfgb : Config) (lsa lsb : List (List Char))
    (hc : cfga = cfgb) (hl : lsa = lsb) :
    scan lsa = scan lsb ∧ run cfga lsa = run cfgb lsb := by
  subst hc
  subst hl
  exact ⟨rfl, rfl⟩

/-- Witness for c8_deterministic at the example header and defaults. -/
theorem c8_witness :
    scan hdrLines = scan hdrLines ∧ run cfg0 hdrLines = run cfg0 hdrLines :=
  c8_deterministic cfg0 cfg0 hdrLines hdrLines rfl rfl

/-- Claim C9 fails on the code: when the input file opened successfully but
the output fopen failed, the guard after it reads the stale input handle,
so the program does not exit with code 2 and proceeds into generation with
a null output handle. -/
theorem c9_no_exit_on_output_failure : outOpenCheck true false = none := rfl

/-- Claim C10: arguments present but fully consumed by option processing
yield the message "file not specified" and exit code 1, a code outside the
documented set 0, 2, 3, 4. -/
theorem c10_file_not_specified (args : List (List Char)) (cfg : Config)
    (hne : args ≠ [])
    (hp : parseOpts cfg0 args = Except.ok (cfg, [])) :
    cliMain args = CliOutcome.exit 1 (("file not specified").toList)
    ∧ (1 : Int) ≠ 0 ∧ (1 : Int) ≠ 2 ∧ (1 : Int) ≠ 3 ∧ (1 : Int) ≠ 4 := by
  refine ⟨?_, by decide, by decide, by decide, by decide⟩
  cases args with
  | nil => exact absurd rfl hne
  | cons a t => simp [cliMain, hp]

/-- Witness for c10_file_not_specified at the single argument -i. -/
theorem c10_witness :
    cliMain [(("-i").toList)] = CliOutcome.exit 1 (("file not specified").toList) :=
  (c10_file_not_specified [(("-i").toList)]
      { addirqs := true, stdexcnames := false, nirqns := -1 }
      (by decide) rfl).1

end H2CStartup
